import Mathlib

/-!
Verification of the FinStockDash financial-data normalization layer.

The development shallowly embeds the data-shaping core of the repository
(`src/utils.py`, `src/data.py`, and the fetch/render control flow of
`src/app.py`) and proves or refutes the frozen specification claims
against that embedding.

Modelling conventions:
- Numeric cell values are modelled as exact rationals (`ℚ`).  The tables the
  code builds come from JSON numbers held in pandas columns; we idealize the
  IEEE-754 doubles as exact decimal arithmetic.  Division by zero on pandas
  (NumPy) scalars does not raise: it produces a signed infinity or NaN with a
  runtime warning, so quotients are modelled by `PyFloat`, rationals extended
  with `inf`, `-inf` and `nan`.
- Fallible Python code (uncaught `KeyError`, `TypeError`, `AttributeError`,
  `ValueError`) is modelled with `Except`.
- `f"{x:.2f}"` and `round(x, 2)` are modelled as round-half-to-even at two
  decimal places on the exact rational value.
-/

deriving instance DecidableEq for Except

attribute [local semireducible] Rat.mul Rat.add Rat.sub Rat.inv

/-- Python exception kinds that the embedded code can raise. -/
inductive PyErr where
  | keyError
  | valueError
  | typeError
  | attributeError
deriving DecidableEq, Repr

/-- Extended numeric value: a finite rational or an IEEE special value.
NumPy scalar division by zero yields `inf`, `-inf` or `nan` (with a warning,
not an exception), which is what pandas-backed values in this program do. -/
inductive PyFloat where
  | fin (q : ℚ)
  | inf
  | ninf
  | nan
deriving DecidableEq, Repr

/-- Round-half-to-even of a rational to an integer (the tie-breaking rule used
by Python float formatting and `round`). -/
def rhe (q : ℚ) : ℤ :=
  let f : ℤ := ⌊q⌋
  let r : ℚ := q - f
  if r < 1/2 then f
  else if 1/2 < r then f + 1
  else if f % 2 = 0 then f else f + 1

/-- Formatting of a finite value with two decimal places, as Python
`f"{x:.2f}"` does on the exact value (sign kept even when the rounded
magnitude is zero, matching Python). -/
def fmt2 (q : ℚ) : String :=
  let n : ℤ := rhe (|q| * 100)
  let m : ℕ := n.toNat
  let ip := m / 100
  let fp := m % 100
  let body := toString ip ++ "." ++ (if fp < 10 then "0" ++ toString fp else toString fp)
  if q < 0 then "-" ++ body else body

/-- Formatting of a `PyFloat` with two decimal places: Python formats the
special values as the strings "inf", "-inf" and "nan". -/
def fmtPF : PyFloat → String
  | .fin q => fmt2 q
  | .inf => "inf"
  | .ninf => "-inf"
  | .nan => "nan"

/-- Evaluation of `a / b * 100` on NumPy-backed scalars: a zero divisor gives
a signed infinity (or NaN when the numerator is also zero) instead of
raising. -/
def pyDivPct (a b : ℚ) : PyFloat :=
  if b = 0 then
    if 0 < a then .inf else if a < 0 then .ninf else .nan
  else .fin (a / b * 100)

/-- Rectangular numeric DataFrame as consumed by `get_delta`: a list of
column names and positional rows of rational cells.  The year labels sit in
the pandas index, not among the columns, and `df[key][i]` resolves
positionally on these string-indexed frames. -/
structure DF where
  cols : List String
  rows : List (List ℚ)
deriving DecidableEq, Repr

/-- Cell of column `key` at positional row `i` (0 default never met under the
well-formedness the theorems assume). -/
def colVal (df : DF) (key : String) (i : ℕ) : ℚ :=
  ((df.rows[i]?.bind fun r => r[df.cols.indexOf key]?).getD 0)

/-- Outcomes `get_delta` signals by returning a fixed English message instead
of a percentage string: the code returns
"Key ... not found in DataFrame columns." when the column is missing and
"DataFrame must contain at least two rows." when fewer than two rows exist.
We model the two message returns as the error side of `Except`, since in
neither case a percentage is produced. -/
inductive DeltaErr where
  | fieldNotFound
  | insufficientData
deriving DecidableEq, Repr

/-- Shallow embedding of `utils.get_delta`: checks the column, then the row
count, reads `val1 = df[key][1]` and `val2 = df[key][0]`, picks the
abs-denominator branch when either value is non-positive, and formats the
result with two decimals and a trailing percent sign. -/
def get_delta (df : DF) (key : String) : Except DeltaErr String :=
  if key ∈ df.cols then
    if df.rows.length < 2 then .error .insufficientData
    else
      let j := df.cols.indexOf key
      let val1 := (df.rows[1]?.bind fun r => r[j]?).getD 0
      let val2 := (df.rows[0]?.bind fun r => r[j]?).getD 0
      let d := if val1 ≤ 0 ∨ val2 ≤ 0 then pyDivPct (val2 - val1) |val1|
               else pyDivPct (val2 - val1) val1
      .ok (fmtPF d ++ "%")
  else .error .fieldNotFound

/-- Delta formula exactly as the specification words it, over the named
`current` and `previous` values: if either is non-positive the change is
divided by the absolute value of `previous`, otherwise by `previous`
itself, times 100. -/
def deltaSpec (current previous : ℚ) : PyFloat :=
  if current ≤ 0 ∨ previous ≤ 0 then pyDivPct (current - previous) |previous|
  else pyDivPct (current - previous) previous

/-- Scaling of the cell of column index `j` by `k` in one positional row. -/
def scaleAt : ℕ → ℚ → List ℚ → List ℚ
  | _, _, [] => []
  | 0, k, x :: t => (k * x) :: t
  | n + 1, k, x :: t => x :: scaleAt n k t

/-- Table with the row-0 and row-1 cells of column `key` multiplied by `k`
(rows beyond the first two, and all other columns, untouched).  This is the
input transformation of the scale-invariance claim, not code of the repo. -/
def scaleTwo (df : DF) (key : String) (k : ℚ) : DF :=
  { cols := df.cols,
    rows := match df.rows with
      | r0 :: r1 :: t =>
          scaleAt (df.cols.indexOf key) k r0 :: scaleAt (df.cols.indexOf key) k r1 :: t
      | l => l }

theorem scaleAt_length (j : ℕ) (k : ℚ) (r : List ℚ) : (scaleAt j k r).length = r.length := by
  induction r generalizing j with
  | nil => cases j <;> simp [scaleAt]
  | cons x t ih => cases j with
    | zero => rfl
    | succ n => simpa [scaleAt] using ih n

theorem scaleAt_getElem? (j : ℕ) (k : ℚ) (r : List ℚ) :
    (scaleAt j k r)[j]? = r[j]?.map (k * ·) := by
  induction r generalizing j with
  | nil => simp [scaleAt]
  | cons x t ih => cases j with
    | zero => simp [scaleAt]
    | succ n => simpa [scaleAt] using ih n

theorem pyDivPct_mul_left {k : ℚ} (hk : 0 < k) (a b : ℚ) :
    pyDivPct (k * a) (k * b) = pyDivPct a b := by
  unfold pyDivPct
  by_cases hb : b = 0
  · subst hb
    have h1 : (0 < k * a) = (0 < a) :=
      propext ⟨fun h => by nlinarith, fun h => mul_pos hk h⟩
    have h2 : (k * a < 0) = (a < 0) :=
      propext ⟨fun h => by nlinarith, fun h => mul_neg_of_pos_of_neg hk h⟩
    simp [mul_zero, h1, h2]
  · have hkb : k * b ≠ 0 := mul_ne_zero hk.ne' hb
    rw [if_neg hkb, if_neg hb, mul_div_mul_left a b hk.ne']

/-- Evaluation of `get_delta` once both preconditions hold: the result is the
formatted branch value over `val2 = df[key][0]` and `val1 = df[key][1]`. -/
theorem get_delta_eval (df : DF) (key : String) (h1 : key ∈ df.cols)
    (h2 : 2 ≤ df.rows.length) :
    get_delta df key =
      .ok (fmtPF (if colVal df key 1 ≤ 0 ∨ colVal df key 0 ≤ 0 then
          pyDivPct (colVal df key 0 - colVal df key 1) |colVal df key 1|
        else
          pyDivPct (colVal df key 0 - colVal df key 1) (colVal df key 1)) ++ "%") := by
  have h2' : ¬ df.rows.length < 2 := Nat.not_lt.mpr h2
  simp only [get_delta, if_pos h1, if_neg h2', colVal]

/-- C1 — confirmed.  For every table with at least two rows containing the
column `field`, `get_delta` takes `current` from row 0 and `previous` from
row 1 and returns the spec formula: `(current - previous) / abs(previous) *
100` when either is non-positive, otherwise `(current - previous) / previous
* 100`, formatted to two decimals with a trailing percent sign.  On the rows
`current = -10`, `previous = -20` it returns "50.00%" (witness below). -/
theorem c1_delta_formula (df : DF) (key : String) (h1 : key ∈ df.cols)
    (h2 : 2 ≤ df.rows.length) :
    get_delta df key = .ok (fmtPF (deltaSpec (colVal df key 0) (colVal df key 1)) ++ "%") := by
  rw [get_delta_eval df key h1 h2]
  unfold deltaSpec
  by_cases hc : colVal df key 1 ≤ 0 ∨ colVal df key 0 ≤ 0
  · rw [if_pos hc, if_pos hc.symm]
  · rw [if_neg hc, if_neg (fun h => hc h.symm)]

/-- C1 witness: the spec's concrete zero/negative-denominator example,
`current = -10`, `previous = -20`, gives "50.00%". -/
theorem c1_delta_formula_witness :
    get_delta ⟨["f"], [[-10], [-20]]⟩ "f" = .ok "50.00%" := by
  rw [c1_delta_formula ⟨["f"], [[-10], [-20]]⟩ "f" (by decide) (by decide)]
  decide

/-- C2 counterexample.  A one-row table whose single column is "g" has fewer
than 2 rows, yet `get_delta` on the absent field "f" signals the missing
field, not insufficient data: the claim's "InsufficientDataError whenever the
table has fewer than 2 rows" fails because the column check runs first. -/
theorem c2_counterexample :
    (DF.mk ["g"] [[1]]).rows.length < 2 ∧
      get_delta ⟨["g"], [[1]]⟩ "f" = .error .fieldNotFound ∧
      get_delta ⟨["g"], [[1]]⟩ "f" ≠ .error .insufficientData := by decide

/-- C2 — corrected.  `get_delta` signals the missing-field error whenever
`field` is not a column; when the field is a column and the table has fewer
than two rows it signals insufficient data (the column check has priority);
and whenever either precondition is violated no percentage is produced. -/
theorem c2_delta_error_contract (df : DF) (key : String) :
    (key ∉ df.cols → get_delta df key = .error .fieldNotFound) ∧
    (key ∈ df.cols → df.rows.length < 2 → get_delta df key = .error .insufficientData) ∧
    (∀ s, get_delta df key = .ok s → key ∈ df.cols ∧ 2 ≤ df.rows.length) := by
  refine ⟨fun h => by simp [get_delta, h], fun h1 h2 => by simp [get_delta, h1, h2], ?_⟩
  intro s hs
  by_cases h1 : key ∈ df.cols
  · by_cases h2 : df.rows.length < 2
    · simp [get_delta, h1, h2] at hs
    · exact ⟨h1, Nat.not_lt.mp h2⟩
  · simp [get_delta, h1] at hs

/-- C2 witness: a one-row table whose column does exist yields the
insufficient-data error. -/
theorem c2_delta_error_contract_witness :
    get_delta ⟨["f"], [[1]]⟩ "f" = .error .insufficientData :=
  (c2_delta_error_contract ⟨["f"], [[1]]⟩ "f").2.1 (by decide) (by decide)

/-- C7 — confirmed.  When the previous value (row 1) is zero the fallback
branch is the one that computes the result and `get_delta` still returns a
string rather than raising: on pandas-backed NumPy scalars the division by
`abs(0) = 0` evaluates to a signed infinity (or NaN when the numerator is
also zero), formatted as "inf%", "-inf%" or "nan%". -/
theorem c7_delta_zero_previous (df : DF) (key : String) (h1 : key ∈ df.cols)
    (h2 : 2 ≤ df.rows.length) (h0 : colVal df key 1 = 0) :
    get_delta df key =
      .ok (fmtPF (pyDivPct (colVal df key 0 - colVal df key 1) |colVal df key 1|) ++ "%") := by
  rw [get_delta_eval df key h1 h2, if_pos (Or.inl (le_of_eq h0))]

/-- C7 witness: previous = 0 and current = 5 yields the defined string
"inf%" (the IEEE quotient of the fallback branch), with no failure. -/
theorem c7_delta_zero_previous_witness :
    get_delta ⟨["f"], [[5], [0]]⟩ "f" = .ok "inf%" := by
  rw [c7_delta_zero_previous ⟨["f"], [[5], [0]]⟩ "f" (by decide) (by decide) (by decide)]
  decide

/-- C10 — confirmed.  Multiplying the row-0 and row-1 cells of `field` by a
positive constant leaves `get_delta` unchanged: both the branch choice and
the quotient (including the zero-denominator special values) are invariant,
so the reported percentage is independent of the magnitude of the figures. -/
theorem c10_delta_scale_invariant (df : DF) (key : String) (k : ℚ) (hk : 0 < k) :
    get_delta (scaleTwo df key k) key = get_delta df key := by
  have hcols : (scaleTwo df key k).cols = df.cols := rfl
  by_cases h1 : key ∈ df.cols
  · match hrows : df.rows with
    | [] => simp [get_delta, scaleTwo, h1, hrows]
    | [r] => simp [get_delta, scaleTwo, h1, hrows]
    | r0 :: r1 :: t =>
      have hmul : ∀ v : ℚ, k * v ≤ 0 ↔ v ≤ 0 := by
        intro v
        constructor
        · intro h; nlinarith
        · intro h; exact mul_nonpos_of_nonneg_of_nonpos hk.le h
      set j := df.cols.indexOf key with hj
      have hv : ∀ r : List ℚ, ((scaleAt j k r)[j]?.getD 0) = k * (r[j]?.getD 0) := by
        intro r
        rw [scaleAt_getElem?]
        cases r[j]? with
        | none => simp
        | some v => simp
      have hlen : ¬ (r0 :: r1 :: t).length < 2 := by simp
      have hlen2 : ¬ (scaleAt j k r0 :: scaleAt j k r1 :: t).length < 2 := by simp
      simp only [get_delta, scaleTwo, hrows, hcols, if_pos h1, hlen, hlen2, if_false,
        ite_false, ← hj]
      simp only [List.getElem?_cons_zero, List.getElem?_cons_succ, Option.some_bind, hv]
      have hcond : (k * r1[j]?.getD 0 ≤ 0 ∨ k * r0[j]?.getD 0 ≤ 0) =
          (r1[j]?.getD 0 ≤ 0 ∨ r0[j]?.getD 0 ≤ 0) :=
        propext (or_congr (hmul _) (hmul _))
      have habs : |k * r1[j]?.getD 0| = k * |r1[j]?.getD 0| := by
        rw [abs_mul, abs_of_pos hk]
      simp only [hcond, habs]
      by_cases hc : r1[j]?.getD 0 ≤ 0 ∨ r0[j]?.getD 0 ≤ 0
      · rw [if_pos hc, if_pos hc, ← mul_sub, pyDivPct_mul_left hk]
      · rw [if_neg hc, if_neg hc, ← mul_sub, pyDivPct_mul_left hk]
  · simp [get_delta, scaleTwo, h1]

/-- C10 witness: doubling both cells of a concrete 30-versus-20 table leaves
the delta at "50.00%". -/
theorem c10_delta_scale_invariant_witness :
    get_delta (scaleTwo ⟨["f"], [[30], [20]]⟩ "f" 2) "f" = get_delta ⟨["f"], [[30], [20]]⟩ "f" ∧
      get_delta ⟨["f"], [[30], [20]]⟩ "f" = .ok "50.00%" :=
  ⟨c10_delta_scale_invariant ⟨["f"], [[30], [20]]⟩ "f" 2 (by norm_num), by decide⟩

/-! ## Statement normalizer (`src/data.py`)

Raw provider records are JSON objects, modelled as association lists from
field names to values; a value is a string or a number.  Python dictionary
subscripting (`report[k]`) raises `KeyError` on a missing field, while
`dict.get(k)` defaults to `None`; both are modelled below.  The per-record
`for` loops that build the row lists are embedded as the structural map
`mapE`, which stops at the first raised exception exactly as the loop
would. -/

/-- JSON scalar held in a raw provider record. -/
inductive Val where
  | str (s : String)
  | num (q : ℚ)
deriving DecidableEq, Repr

/-- Raw provider record: an ordered JSON object. -/
abbrev RawRec := List (String × Val)

/-- Python `report[k]`: the value, or `KeyError` when the field is absent. -/
def getItem (r : RawRec) (k : String) : Except PyErr Val :=
  match r.lookup k with
  | some v => .ok v
  | none => .error .keyError

/-- Exception-propagating map modelling a Python `for` loop that appends one
derived element per source element: the first raised exception aborts the
loop. -/
def mapE {α β : Type} (f : α → Except PyErr β) : List α → Except PyErr (List β)
  | [] => .ok []
  | a :: l => match f a with
    | .error e => .error e
    | .ok b => match mapE f l with
      | .error e => .error e
      | .ok bs => .ok (b :: bs)

/-- Python `s.split('-')[0]`: the segment before the first dash (the whole
string when no dash occurs). -/
def splitHeadDash (s : String) : String :=
  ⟨s.toList.takeWhile (fun c => c ≠ '-')⟩

/-- Python `report['date'].split('-')[0]` applied to a value: only a string
has a `split` method; a number raises `AttributeError`. -/
def valYearFromDate (v : Val) : Except PyErr Val :=
  match v with
  | .str s => .ok (.str (splitHeadDash s))
  | .num _ => .error .attributeError

/-- Python `round(x, 2)` on a numeric value, idealized as round-half-to-even
at two decimal places on the exact rational. -/
def pyRound2 (q : ℚ) : ℚ := (rhe (q * 100) : ℚ) / 100

/-- Rounding of a raw value: `round` on a non-number raises `TypeError`. -/
def roundVal2 (v : Val) : Except PyErr Val :=
  match v with
  | .num q => .ok (.num (pyRound2 q))
  | .str _ => .error .typeError

/-- One entry of a normalizer's literal dictionary: the canonical display
name, the provider field read for it, and whether the code wraps the read in
`round(..., 2)`. -/
structure FieldSpec where
  canon : String
  rawKey : String
  rnd : Bool
deriving DecidableEq, Repr

/-- Year-keyed statement endpoints of the Financial Modeling Prep API. -/
inductive YEndpoint where
  | income
  | balance
  | cashflow
  | metrics
  | ratios
deriving DecidableEq, Repr

/-- Endpoints whose loop reads `report['calendarYear']`; the others read
`report['date'].split('-')[0]`. -/
def usesCalendarYear : YEndpoint → Bool
  | .income => true
  | .balance => true
  | .cashflow => false
  | .metrics => false
  | .ratios => false

/-- Field dictionary of `get_income_statement` (data.py lines 144-155). -/
def incomeFieldMap : List FieldSpec :=
  [⟨"Revenue", "revenue", false⟩,
   ⟨"(-) Cost of Revenue", "costOfRevenue", false⟩,
   ⟨"= Gross Profit", "grossProfit", false⟩,
   ⟨"(-) Operating Expense", "operatingExpenses", false⟩,
   ⟨"= Operating Income", "operatingIncome", false⟩,
   ⟨"(+/-) Other Income/Expenses", "totalOtherIncomeExpensesNet", false⟩,
   ⟨"= Income Before Tax", "incomeBeforeTax", false⟩,
   ⟨"(+/-) Tax Income/Expense", "incomeTaxExpense", false⟩,
   ⟨"= Net Income", "netIncome", false⟩]

/-- Field dictionary of `get_balance_sheet` (data.py lines 202-211). -/
def balanceFieldMap : List FieldSpec :=
  [⟨"Assets", "totalAssets", false⟩,
   ⟨"Current Assets", "totalCurrentAssets", false⟩,
   ⟨"Non-Current Assets", "totalNonCurrentAssets", false⟩,
   ⟨"Current Liabilities", "totalCurrentLiabilities", false⟩,
   ⟨"Non-Current Liabilities", "totalNonCurrentLiabilities", false⟩,
   ⟨"Liabilities", "totalLiabilities", false⟩,
   ⟨"Equity", "totalEquity", false⟩]

/-- Field dictionary of `get_cash_flow` (data.py lines 255-261). -/
def cashflowFieldMap : List FieldSpec :=
  [⟨"Cash flows from operating activities", "netCashProvidedByOperatingActivities", false⟩,
   ⟨"Cash flows from investing activities", "netCashUsedForInvestingActivites", false⟩,
   ⟨"Cash flows from financing activities", "netCashUsedProvidedByFinancingActivities", false⟩,
   ⟨"Free cash flow", "freeCashFlow", false⟩]

/-- Field dictionary of `get_key_metrics` (data.py lines 305-313). -/
def metricsFieldMap : List FieldSpec :=
  [⟨"Market Cap", "marketCap", false⟩,
   ⟨"Working Capital", "workingCapital", false⟩,
   ⟨"D/E ratio", "debtToEquity", false⟩,
   ⟨"P/E Ratio", "peRatio", false⟩,
   ⟨"ROE", "roe", false⟩,
   ⟨"Dividend Yield", "dividendYield", false⟩]

/-- Field dictionary of `get_financial_ratios` (data.py lines 357-403); the
`rnd` flag records which reads the code wraps in `round(..., 2)` — note
Gross Profit Margin, Net Profit Margin and Dividend Yield are read bare. -/
def ratiosFieldMap : List FieldSpec :=
  [⟨"Current Ratio", "currentRatio", true⟩,
   ⟨"Quick Ratio", "quickRatio", true⟩,
   ⟨"Cash Ratio", "cashRatio", true⟩,
   ⟨"Days of Sales Outstanding", "daysOfSalesOutstanding", true⟩,
   ⟨"Days of Inventory Outstanding", "daysOfInventoryOutstanding", true⟩,
   ⟨"Operating Cycle", "operatingCycle", true⟩,
   ⟨"Days of Payables Outstanding", "daysOfPayablesOutstanding", true⟩,
   ⟨"Cash Conversion Cycle", "cashConversionCycle", true⟩,
   ⟨"Gross Profit Margin", "grossProfitMargin", false⟩,
   ⟨"Operating Profit Margin", "operatingProfitMargin", true⟩,
   ⟨"Pretax Profit Margin", "pretaxProfitMargin", true⟩,
   ⟨"Net Profit Margin", "netProfitMargin", false⟩,
   ⟨"Effective Tax Rate", "effectiveTaxRate", true⟩,
   ⟨"Return on Assets", "returnOnAssets", true⟩,
   ⟨"Return on Equity", "returnOnEquity", true⟩,
   ⟨"Return on Capital Employed", "returnOnCapitalEmployed", true⟩,
   ⟨"Net Income per EBT", "netIncomePerEBT", true⟩,
   ⟨"EBT per EBIT", "ebtPerEbit", true⟩,
   ⟨"EBIT per Revenue", "ebitPerRevenue", true⟩,
   ⟨"Debt Ratio", "debtRatio", true⟩,
   ⟨"Debt Equity Ratio", "debtEquityRatio", true⟩,
   ⟨"Long-term Debt to Capitalization", "longTermDebtToCapitalization", true⟩,
   ⟨"Total Debt to Capitalization", "totalDebtToCapitalization", true⟩,
   ⟨"Interest Coverage", "interestCoverage", true⟩,
   ⟨"Cash Flow to Debt Ratio", "cashFlowToDebtRatio", true⟩,
   ⟨"Company Equity Multiplier", "companyEquityMultiplier", true⟩,
   ⟨"Receivables Turnover", "receivablesTurnover", true⟩,
   ⟨"Payables Turnover", "payablesTurnover", true⟩,
   ⟨"Inventory Turnover", "inventoryTurnover", true⟩,
   ⟨"Fixed Asset Turnover", "fixedAssetTurnover", true⟩,
   ⟨"Asset Turnover", "assetTurnover", true⟩,
   ⟨"Operating Cash Flow per Share", "operatingCashFlowPerShare", true⟩,
   ⟨"Free Cash Flow per Share", "freeCashFlowPerShare", true⟩,
   ⟨"Cash per Share", "cashPerShare", true⟩,
   ⟨"Payout Ratio", "payoutRatio", true⟩,
   ⟨"Operating Cash Flow Sales Ratio", "operatingCashFlowSalesRatio", true⟩,
   ⟨"Free Cash Flow Operating Cash Flow Ratio", "freeCashFlowOperatingCashFlowRatio", true⟩,
   ⟨"Cash Flow Coverage Ratios", "cashFlowCoverageRatios", true⟩,
   ⟨"Price to Book Value Ratio", "priceToBookRatio", true⟩,
   ⟨"Price to Earnings Ratio", "priceEarningsRatio", true⟩,
   ⟨"Price to Sales Ratio", "priceToSalesRatio", true⟩,
   ⟨"Dividend Yield", "dividendYield", false⟩,
   ⟨"Enterprise Value to EBITDA", "enterpriseValueMultiple", true⟩,
   ⟨"Price to Fair Value", "priceFairValue", true⟩]

/-- Field dictionary of the endpoint. -/
def fieldMapY : YEndpoint → List FieldSpec
  | .income => incomeFieldMap
  | .balance => balanceFieldMap
  | .cashflow => cashflowFieldMap
  | .metrics => metricsFieldMap
  | .ratios => ratiosFieldMap

/-- Period key of one record: `report['calendarYear']` for income statement
and balance sheet, `report['date'].split('-')[0]` for cash flow, key
metrics and ratios. -/
def extractYearY (ep : YEndpoint) (r : RawRec) : Except PyErr Val :=
  if usesCalendarYear ep then getItem r "calendarYear"
  else
    match getItem r "date" with
    | .error e => .error e
    | .ok d => valYearFromDate d

/-- Values of the literal dictionary body: each canonical field reads its
provider field (raising `KeyError` when absent), wrapped in `round(.., 2)`
when the code does so; evaluation proceeds left to right and the first
exception aborts the record. -/
def extractFields : List FieldSpec → RawRec → Except PyErr (List (String × Val))
  | [], _ => .ok []
  | s :: t, r =>
    match getItem r s.rawKey with
    | .error e => .error e
    | .ok v =>
      match (if s.rnd then roundVal2 v else .ok v) with
      | .error e => .error e
      | .ok w =>
        match extractFields t r with
        | .error e => .error e
        | .ok fs => .ok ((s.canon, w) :: fs)

/-- One loop iteration: the period key (computed first, as in the code) plus
the canonical fields, as the row dictionary. -/
def extractRowY (ep : YEndpoint) (r : RawRec) : Except PyErr (List (String × Val)) :=
  match extractYearY ep r with
  | .error e => .error e
  | .ok y =>
    match extractFields (fieldMapY ep) r with
    | .error e => .error e
    | .ok fs => .ok (("Year", y) :: fs)

/-- Columns of `pd.DataFrame(list_of_dicts)`: the union of the row
dictionaries' keys in first-appearance order (empty for an empty list). -/
def unionKeys (rows : List (List (String × Val))) : List String :=
  rows.foldl (fun acc row => row.foldl (fun a p => if p.1 ∈ a then a else a ++ [p.1]) acc) []

/-- Year-indexed normalized table: the pandas frame after
`set_index('Year')`. -/
structure YDF where
  index : List Val
  cols : List String
  rows : List (List (String × Val))
deriving DecidableEq, Repr

/-- Embedding of `pd.DataFrame(rows).set_index('Year')`: raises `KeyError`
when "Year" is not among the frame's columns — which is exactly the case for
an empty row list, whose frame has no columns at all. -/
def setIndexYear (rows : List (List (String × Val))) : Except PyErr YDF :=
  let cols := unionKeys rows
  if "Year" ∈ cols then
    .ok { index := rows.map (fun r => (r.lookup "Year").getD (.str "")),
          cols := cols.erase "Year",
          rows := rows.map (fun r => r.filter (fun p => p.1 != "Year")) }
  else .error .keyError

/-- Normalization core shared by the five year-keyed fetchers: the row-
building loop over the decoded JSON list followed by the frame construction.
The surrounding handlers catch only `RequestException` (plus `ValueError`
for income statement), so a `KeyError`, `TypeError` or `AttributeError`
raised here propagates out of the fetcher. -/
def normY (ep : YEndpoint) (raws : List RawRec) : Except PyErr YDF :=
  match mapE (extractRowY ep) raws with
  | .error e => .error e
  | .ok rows => setIndexYear rows

/-- Embedding of the extraction block of `get_company_info` (data.py lines
45-56): every field is read with `data.get(...)`, which defaults to `None`
instead of raising, so the resulting record is total. -/
def normCompanyInfo (data : RawRec) : List (String × Option Val) :=
  [("Name", data.lookup "Name"),
   ("Exchange", data.lookup "Exchange"),
   ("Currency", data.lookup "Currency"),
   ("Sector", data.lookup "Sector"),
   ("Market Cap", data.lookup "MarketCapitalization"),
   ("P/E ratio", data.lookup "PERatio"),
   ("Dividends (Yield)", data.lookup "DividendYield"),
   ("Profit Margin", data.lookup "ProfitMargin"),
   ("Beta", data.lookup "Beta"),
   ("EPS", data.lookup "EPS")]

/-- Company-profile normalization in the common fallible type: the body can
raise nothing, so it is always `ok`. -/
def normProfileE (data : RawRec) : Except PyErr (List (String × Option Val)) :=
  .ok (normCompanyInfo data)

/-- Digit-list to natural number accumulator used by `parseDec`. -/
def digitsToNatAux : List Char → ℕ → Option ℕ
  | [], acc => some acc
  | c :: t, acc => if c.isDigit then digitsToNatAux t (10 * acc + (c.toNat - 48)) else none

/-- Python `float(s)` on a plain decimal literal (optional leading minus,
digits, optional single dot): `None` when the string does not parse. -/
def parseDec (s : String) : Option ℚ :=
  let cs0 := s.toList
  let neg := match cs0 with
    | c :: _ => c == '-'
    | [] => false
  let cs := if neg then cs0.drop 1 else cs0
  let ipart := cs.takeWhile (fun c => c ≠ '.')
  let rest := cs.drop ipart.length
  let fpart := match rest with
    | [] => ([] : List Char)
    | _ :: t => t
  if ipart.isEmpty && fpart.isEmpty then none
  else
    match digitsToNatAux ipart 0, digitsToNatAux fpart 0 with
    | some i, some f =>
      let q : ℚ := (i : ℚ) + (f : ℚ) / ((10 : ℚ) ^ fpart.length)
      some (if neg then -q else q)
    | _, _ => none

/-- Coercion performed by `astype(float)` on one cell: a number is kept
exactly, a string is parsed as a decimal literal, anything unparsable raises
`ValueError`. -/
def valToFloat (v : Val) : Except PyErr ℚ :=
  match v with
  | .num q => .ok q
  | .str s =>
    match parseDec s with
    | some q => .ok q
    | none => .error .valueError

/-- Normalized price frame: the date index, the single renamed column, and
the float closing prices. -/
structure PriceDF where
  index : List ℕ
  cols : List String
  vals : List ℚ
deriving DecidableEq, Repr

/-- Provider field holding the monthly closing price. -/
def closeKey : String := "4. close"

/-- Selection and coercion of one monthly observation: read the closing
price (`KeyError` when the column is absent) and coerce it to float. -/
def extractPriceRow (p : ℕ × RawRec) : Except PyErr (ℕ × ℚ) :=
  match getItem p.2 closeKey with
  | .error e => .error e
  | .ok v =>
    match valToFloat v with
    | .error e => .error e
    | .ok q => .ok (p.1, q)

/-- Embedding of the normalization part of `get_stock_price` (data.py lines
96-103): the decoded monthly series in response order (dates as comparable
codes), truncated to the first 60 entries, the closing-price field selected
and coerced to float, renamed "Price".  No sorting is performed — the order
of the raw response is preserved. -/
def normPrice (data : List (ℕ × RawRec)) : Except PyErr PriceDF :=
  match mapE extractPriceRow (data.take 60) with
  | .error e => .error e
  | .ok rows => .ok { index := rows.map Prod.fst, cols := ["Price"], vals := rows.map Prod.snd }

/-- Provider fields a record must contain for the endpoint's loop body to
complete: the period-key field plus every mapped field. -/
def requiredKeysY (ep : YEndpoint) : List String :=
  (if usesCalendarYear ep then ["calendarYear"] else ["date"]) ++
    (fieldMapY ep).map (fun s => s.rawKey)

theorem mapE_cons {α β : Type} (f : α → Except PyErr β) (a : α) (l : List α) :
    mapE f (a :: l) = match f a with
      | .error e => .error e
      | .ok b => match mapE f l with
        | .error e => .error e
        | .ok bs => .ok (b :: bs) := rfl

theorem mapE_error_of_mem {α β : Type} (f : α → Except PyErr β) (l : List α) (x : α)
    (e : PyErr) (hx : x ∈ l) (hfx : f x = .error e) : ∃ d, mapE f l = .error d := by
  induction l with
  | nil => simp at hx
  | cons a t ih =>
    rw [List.mem_cons] at hx
    cases hfa : f a with
    | error d => exact ⟨d, by rw [mapE_cons, hfa]⟩
    | ok b =>
      rcases hx with rfl | hx
      · rw [hfa] at hfx; exact absurd hfx (by simp)
      · obtain ⟨d, hd⟩ := ih hx
        exact ⟨d, by rw [mapE_cons, hfa, hd]⟩

theorem extractFields_error_of_missing (specs : List FieldSpec) (r : RawRec) (s : FieldSpec)
    (hs : s ∈ specs) (hmiss : r.lookup s.rawKey = none) :
    ∃ e, extractFields specs r = .error e := by
  induction specs with
  | nil => simp at hs
  | cons a t ih =>
    rw [List.mem_cons] at hs
    rcases hs with rfl | hs
    · exact ⟨.keyError, by simp [extractFields, getItem, hmiss]⟩
    · cases hg : getItem r a.rawKey with
      | error e => exact ⟨e, by simp [extractFields, hg]⟩
      | ok v =>
        cases hw : (if a.rnd then roundVal2 v else .ok v) with
        | error e => exact ⟨e, by simp [extractFields, hg, hw]⟩
        | ok w =>
          obtain ⟨e, he⟩ := ih hs
          exact ⟨e, by simp [extractFields, hg, hw, he]⟩

theorem extractRowY_error_of_missing (ep : YEndpoint) (r : RawRec) (fld : String)
    (h2 : fld ∈ requiredKeysY ep) (h3 : r.lookup fld = none) :
    ∃ e, extractRowY ep r = .error e := by
  rw [requiredKeysY, List.mem_append] at h2
  rcases h2 with hy | hf
  · cases hcy : usesCalendarYear ep with
    | true =>
      rw [hcy] at hy
      simp at hy
      subst hy
      exact ⟨.keyError, by simp [extractRowY, extractYearY, hcy, getItem, h3]⟩
    | false =>
      rw [hcy] at hy
      simp at hy
      subst hy
      exact ⟨.keyError, by simp [extractRowY, extractYearY, hcy, getItem, h3]⟩
  · obtain ⟨s, hs, hsk⟩ := List.mem_map.mp hf
    cases hyr : extractYearY ep r with
    | error e => exact ⟨e, by simp [extractRowY, hyr]⟩
    | ok y =>
      obtain ⟨e, he⟩ := extractFields_error_of_missing (fieldMapY ep) r s hs (by rw [hsk]; exact h3)
      exact ⟨e, by simp [extractRowY, hyr, he]⟩

theorem extractFields_mem_round (specs : List FieldSpec) (r : RawRec) :
    ∀ (fields : List (String × Val)) (c k : String) (rnd : Bool) (q : ℚ),
      extractFields specs r = .ok fields → FieldSpec.mk c k rnd ∈ specs →
      r.lookup k = some (.num q) →
      (c, Val.num (if rnd then pyRound2 q else q)) ∈ fields := by
  induction specs with
  | nil => intro fields c k rnd q _ h2 _; simp at h2
  | cons s t ih =>
    intro fields c k rnd q h1 h2 h3
    rw [List.mem_cons] at h2
    cases hg : getItem r s.rawKey with
    | error e => simp [extractFields, hg] at h1
    | ok v =>
      cases hw : (if s.rnd then roundVal2 v else .ok v) with
      | error e => simp [extractFields, hg, hw] at h1
      | ok w =>
        cases hrest : extractFields t r with
        | error e => simp [extractFields, hg, hw, hrest] at h1
        | ok fs =>
          have hfields : fields = (s.canon, w) :: fs := by
            simp [extractFields, hg, hw, hrest] at h1
            exact h1.symm
          subst hfields
          rcases h2 with h2 | h2
          · subst h2
            have hv : (Except.ok v : Except PyErr Val) = Except.ok (Val.num q) := by
              rw [← hg]; simp [getItem, h3]
            injection hv with hv
            subst hv
            cases rnd with
            | true =>
              simp only [roundVal2, if_true] at hw
              injection hw with hw
              rw [← hw]
              exact List.mem_cons_self _ _
            | false =>
              simp only [if_false] at hw
              injection hw with hw
              rw [← hw]
              exact List.mem_cons_self _ _
          · exact List.mem_cons_of_mem _ (ih fs c k rnd q hrest h2 h3)

example : normY .income [] = .error .keyError := by decide
example : normY .cashflow [[("date", .str "2022-03-15"),
  ("netCashProvidedByOperatingActivities", .num 1),
  ("netCashUsedForInvestingActivites", .num 2),
  ("netCashUsedProvidedByFinancingActivities", .num 3),
  ("freeCashFlow", .num 4)]] =
    .ok { index := [.str "2022"],
          cols := ["Cash flows from operating activities",
                   "Cash flows from investing activities",
                   "Cash flows from financing activities",
                   "Free cash flow"],
          rows := [[("Cash flows from operating activities", .num 1),
                    ("Cash flows from investing activities", .num 2),
                    ("Cash flows from financing activities", .num 3),
                    ("Free cash flow", .num 4)]] } := by decide
example : normPrice [(2, [(closeKey, .num 20)]), (1, [(closeKey, .num 10)])] =
    .ok { index := [2, 1], cols := ["Price"], vals := [20, 10] } := by decide
example : parseDec "123.45" = some (2469/20) := by decide

/-- C3 counterexample.  Normalizing an empty raw list does NOT yield an
empty table: the row list is empty, so the constructed frame has no columns
and `set_index('Year')` raises a `KeyError`, which no handler of the income
or balance-sheet fetcher catches. -/
theorem c3_counterexample :
    normY .income [] = .error .keyError ∧ normY .balance [] = .error .keyError := by decide

/-- C3 — corrected.  For every year-keyed statement endpoint, normalizing an
empty raw list fails with the `KeyError` raised by `set_index('Year')` on a
column-less empty frame, instead of producing a zero-row table. -/
theorem c3_empty_list_fails (ep : YEndpoint) : normY ep [] = .error .keyError := by
  cases ep <;> decide

/-- C5 counterexample.  The company-profile normalizer reads every field
with `dict.get`, so a raw record missing all expected fields normalizes
without any error, to a profile of `None` values — refuting the claim for
the profile endpoint. -/
theorem c5_counterexample :
    normProfileE [] = .ok
      [("Name", none), ("Exchange", none), ("Currency", none), ("Sector", none),
       ("Market Cap", none), ("P/E ratio", none), ("Dividends (Yield)", none),
       ("Profit Margin", none), ("Beta", none), ("EPS", none)] := by decide

/-- C5 — corrected.  For the five year-keyed statement endpoints a record
missing any expected field makes normalization fail (the uncaught Python
`KeyError` playing the role of the `SchemaError` of the specification); the
company profile is the exception, yielding `None`-valued fields instead. -/
theorem c5_missing_field_fails (ep : YEndpoint) (raws : List RawRec) (r : RawRec)
    (fld : String) (h1 : r ∈ raws) (h2 : fld ∈ requiredKeysY ep)
    (h3 : r.lookup fld = none) : ∃ e, normY ep raws = .error e := by
  obtain ⟨e0, he0⟩ := extractRowY_error_of_missing ep r fld h2 h3
  obtain ⟨e1, he1⟩ := mapE_error_of_mem (extractRowY ep) raws r e0 h1 he0
  exact ⟨e1, by simp [normY, he1]⟩

/-- C5 witness: a balance-sheet record carrying only its year but no
`totalAssets` fails to normalize. -/
theorem c5_missing_field_fails_witness :
    (normY .balance [[("calendarYear", Val.str "2022")]]).isOk = false := by
  obtain ⟨e, he⟩ := c5_missing_field_fails .balance [[("calendarYear", Val.str "2022")]]
    [("calendarYear", Val.str "2022")] "totalAssets" (by decide) (by decide) (by decide)
  rw [he]; rfl

/-- C8 — confirmed.  The period key comes from `calendarYear` for the income
statement and balance sheet, and from the segment of `date` before the first
dash for cash flow, key metrics and ratios — consistently for every record
of the endpoint; and the date "2022-03-15" yields the period key "2022". -/
theorem c8_year_key_strategies :
    (∀ (r : RawRec) (y : Val), r.lookup "calendarYear" = some y →
      extractYearY .income r = .ok y ∧ extractYearY .balance r = .ok y) ∧
    (∀ (r : RawRec) (s : String), r.lookup "date" = some (.str s) →
      extractYearY .cashflow r = .ok (.str (splitHeadDash s)) ∧
      extractYearY .metrics r = .ok (.str (splitHeadDash s)) ∧
      extractYearY .ratios r = .ok (.str (splitHeadDash s))) ∧
    splitHeadDash "2022-03-15" = "2022" := by
  refine ⟨?_, ?_, by decide⟩
  · intro r y h
    exact ⟨by simp [extractYearY, usesCalendarYear, getItem, h],
           by simp [extractYearY, usesCalendarYear, getItem, h]⟩
  · intro r s h
    refine ⟨?_, ?_, ?_⟩ <;>
      simp [extractYearY, usesCalendarYear, getItem, h, valYearFromDate]

/-- C8 witness: a key-metrics record dated "2022-03-15" gets period key
"2022". -/
theorem c8_year_key_strategies_witness :
    extractYearY .metrics [("date", Val.str "2022-03-15")] = .ok (.str "2022") := by
  obtain ⟨-, h2, h3⟩ := c8_year_key_strategies
  have h := (h2 [("date", Val.str "2022-03-15")] "2022-03-15" (by decide)).2.1
  rwa [h3] at h

/-- Concrete ratios record whose every numeric field is 1/3. -/
def ratiosRecThird : RawRec :=
  ("date", Val.str "2022-03-15") :: ratiosFieldMap.map (fun s => (s.rawKey, Val.num (1/3)))

set_option maxRecDepth 100000 in
/-- C9 counterexample.  A ratios record whose raw `grossProfitMargin` is 1/3
normalizes with the Gross Profit Margin cell still exactly 1/3 — not a
two-decimal value — while e.g. Current Ratio is rounded to 0.33: not every
ratios field is rounded by the normalizer. -/
theorem c9_counterexample :
    (normY .ratios [ratiosRecThird]).map
        (fun df => (df.rows.headD []).lookup "Gross Profit Margin") =
      .ok (some (Val.num (1/3))) ∧
    pyRound2 (1/3) ≠ (1/3 : ℚ) ∧
    (normY .ratios [ratiosRecThird]).map
        (fun df => (df.rows.headD []).lookup "Current Ratio") =
      .ok (some (Val.num (33/100))) := by decide

/-- C9 — corrected.  The ratios normalizer rounds every field to two
decimals except exactly Gross Profit Margin, Net Profit Margin and Dividend
Yield, which are copied bare; each field flagged rounded lands in the row as
`round(raw, 2)` and each bare field as the raw value. -/
theorem c9_ratio_rounding :
    ((ratiosFieldMap.filter (fun s => !s.rnd)).map (fun s => s.canon) =
        ["Gross Profit Margin", "Net Profit Margin", "Dividend Yield"]) ∧
    ∀ (r : RawRec) (fields : List (String × Val)) (c k : String) (rnd : Bool) (q : ℚ),
      extractFields ratiosFieldMap r = .ok fields → FieldSpec.mk c k rnd ∈ ratiosFieldMap →
      r.lookup k = some (.num q) →
      (c, Val.num (if rnd then pyRound2 q else q)) ∈ fields :=
  ⟨by decide, fun r fields c k rnd q h1 h2 h3 =>
    extractFields_mem_round ratiosFieldMap r fields c k rnd q h1 h2 h3⟩

/-- Concrete ratios record whose every numeric field is 1/4. -/
def ratiosRecQuarter : RawRec :=
  ("date", Val.str "2022-03-15") :: ratiosFieldMap.map (fun s => (s.rawKey, Val.num (1/4)))

/-- C9 witness: with raw `currentRatio` 1/4 the extracted row holds the
rounded Current Ratio 0.25 (= 1/4 exactly). -/
theorem c9_ratio_rounding_witness :
    ("Current Ratio", Val.num (1/4)) ∈
      ((extractFields ratiosFieldMap ratiosRecQuarter).toOption.getD []) := by
  have hr : pyRound2 (1/4 : ℚ) = 1/4 := by decide
  have h := c9_ratio_rounding.2 ratiosRecQuarter
    ((extractFields ratiosFieldMap ratiosRecQuarter).toOption.getD [])
    "Current Ratio" "currentRatio" true (1/4) (by decide) (by decide) (by decide)
  simpa [hr] using h

theorem mapE_price_ok (l : List (ℕ × RawRec))
    (h : ∀ p ∈ l, ∃ q, p.2.lookup closeKey = some (Val.num q)) :
    ∃ rows, mapE extractPriceRow l = .ok rows ∧ rows.map Prod.fst = l.map Prod.fst ∧
      ∀ pr ∈ rows, ∃ rec, (pr.1, rec) ∈ l ∧ rec.lookup closeKey = some (Val.num pr.2) := by
  induction l with
  | nil => exact ⟨[], rfl, rfl, by simp⟩
  | cons a t ih =>
    obtain ⟨q, hq⟩ := h a (List.mem_cons_self a t)
    have hfa : extractPriceRow a = .ok (a.1, q) := by
      simp [extractPriceRow, getItem, hq, valToFloat]
    obtain ⟨rows, hrows, hfst, hmem⟩ := ih (fun p hp => h p (List.mem_cons_of_mem a hp))
    refine ⟨(a.1, q) :: rows, by rw [mapE_cons, hfa, hrows], by simp [hfst], ?_⟩
    intro pr hpr
    rcases List.mem_cons.mp hpr with rfl | hpr
    · exact ⟨a.2, by simp, hq⟩
    · obtain ⟨rec, hr1, hr2⟩ := hmem pr hpr
      exact ⟨rec, List.mem_cons_of_mem a hr1, hr2⟩

/-- C4 counterexample.  A two-month raw response in ascending date order
normalizes to a price series still in ascending order: the code never sorts,
so the output is not sorted descending for every raw response. -/
theorem c4_counterexample :
    normPrice [(1, [(closeKey, Val.num 10)]), (2, [(closeKey, Val.num 20)])] =
      .ok { index := [1, 2], cols := ["Price"], vals := [10, 20] } ∧
    ¬ List.Pairwise (fun a b : ℕ => b < a) [1, 2] := by decide

/-- C4 — corrected.  The normalizer preserves the raw response order rather
than sorting; provided the provider sends observations most-recent-first
(dates strictly descending, as Alpha Vantage does), the output is exactly
the first 60 observations — hence the 60 most recent, every dropped date
being older than every kept one — still descending, with the single column
"Price" holding the float closing prices of the kept dates. -/
theorem c4_price_normalization (data : List (ℕ × RawRec))
    (hsorted : List.Pairwise (fun a b : ℕ => b < a) (data.map Prod.fst))
    (hclose : ∀ p ∈ data, ∃ q, p.2.lookup closeKey = some (Val.num q)) :
    ∃ rows : List (ℕ × ℚ),
      normPrice data = .ok ⟨rows.map Prod.fst, ["Price"], rows.map Prod.snd⟩ ∧
      rows.map Prod.fst = (data.map Prod.fst).take 60 ∧
      List.Pairwise (fun a b : ℕ => b < a) (rows.map Prod.fst) ∧
      rows.length = min 60 data.length ∧
      (∀ d ∈ (data.map Prod.fst).drop 60, ∀ e ∈ rows.map Prod.fst, d < e) ∧
      ∀ pr ∈ rows, ∃ rec, (pr.1, rec) ∈ data ∧ rec.lookup closeKey = some (Val.num pr.2) := by
  obtain ⟨rows, hrows, hfst, hmem⟩ :=
    mapE_price_ok (data.take 60) (fun p hp => hclose p (List.take_subset 60 data hp))
  have hfst60 : rows.map Prod.fst = (data.map Prod.fst).take 60 := by
    rw [hfst, List.map_take]
  refine ⟨rows, by simp [normPrice, hrows], hfst60, ?_, ?_, ?_, ?_⟩
  · rw [hfst60]
    exact List.Pairwise.sublist (List.take_sublist 60 _) hsorted
  · have := congrArg List.length hfst60
    simpa using this
  · intro d hd e he
    rw [hfst60] at he
    have hsplit := hsorted
    rw [← List.take_append_drop 60 (data.map Prod.fst)] at hsplit
    obtain ⟨-, -, hcross⟩ := List.pairwise_append.mp hsplit
    exact hcross e he d hd
  · intro pr hpr
    obtain ⟨rec, hr1, hr2⟩ := hmem pr hpr
    exact ⟨rec, List.take_subset 60 data hr1, hr2⟩

/-- C4 witness: a concrete descending two-month response normalizes intact. -/
theorem c4_price_normalization_witness :
    (normPrice [(5, [(closeKey, Val.num 50)]), (3, [(closeKey, Val.num 30)])]).isOk = true := by
  obtain ⟨rows, hout, -⟩ := c4_price_normalization
    [(5, [(closeKey, Val.num 50)]), (3, [(closeKey, Val.num 30)])]
    (by decide) (by intro p hp; fin_cases hp; exacts [⟨50, rfl⟩, ⟨30, rfl⟩])
  rw [hout]; rfl

/-! ## Fetch orchestration (`src/app.py`)

The dashboard callback calls the seven data functions sequentially inside a
single `try` block; any exception escaping a data function reaches the
`except Exception` handler, which reports an error and calls `sys.exit`.
Each data function itself catches `RequestException` (and, for the income
statement, the stock price and the profile, also `ValueError`) and returns
`None`; other exceptions propagate.  A fetch outcome is therefore either a
decoded response body or a transport-level failure. -/

/-- Network outcome of one upstream call: a decoded body or a raised
`RequestException`. -/
inductive Fetched (α : Type) where
  | reqFail
  | resp (a : α)

/-- Year-keyed fetchers that also catch `ValueError` (only the income
statement does). -/
def catchesValueErrorY : YEndpoint → Bool
  | .income => true
  | _ => false

/-- Whole data-function behavior for a year-keyed endpoint: a transport
failure is caught and returns `None`; a normalization exception propagates
unless it is a `ValueError` caught by that fetcher. -/
def dataFnY (ep : YEndpoint) : Fetched (List RawRec) → Except PyErr (Option YDF)
  | .reqFail => .ok none
  | .resp raws =>
    match normY ep raws with
    | .ok df => .ok (some df)
    | .error e =>
      if catchesValueErrorY ep && (e == .valueError) then .ok none else .error e

/-- Whole `get_company_info` behavior: transport failure returns `None`; the
extraction itself cannot raise. -/
def dataFnProfile : Fetched RawRec → Except PyErr (Option (List (String × Option Val)))
  | .reqFail => .ok none
  | .resp r => .ok (some (normCompanyInfo r))

/-- Whole `get_stock_price` behavior: transport failures and `ValueError`
return `None`; a `KeyError` (missing series or column) propagates. -/
def dataFnPrice : Fetched (List (ℕ × RawRec)) → Except PyErr (Option PriceDF)
  | .reqFail => .ok none
  | .resp data =>
    match normPrice data with
    | .ok df => .ok (some df)
    | .error e => if e == .valueError then .ok none else .error e

/-- Tables the callback hands to rendering, in call order: profile, key
metrics, income statement, price series, ratios, balance sheet, cash flow;
a `none` slot is a data function that returned `None`. -/
structure Dashboard where
  profile : Option (List (String × Option Val))
  metrics : Option YDF
  income : Option YDF
  price : Option PriceDF
  ratios : Option YDF
  balance : Option YDF
  cashflow : Option YDF
deriving DecidableEq, Repr

/-- Embedding of app.py lines 91-103: the seven data calls run sequentially
inside one `try`; the first escaping exception aborts the whole callback
(`st.error` + `sys.exit`), producing no dashboard at all. -/
def appRun (p : Fetched RawRec) (m i : Fetched (List RawRec))
    (pr : Fetched (List (ℕ × RawRec))) (r b c : Fetched (List RawRec)) :
    Except PyErr Dashboard :=
  match dataFnProfile p with
  | .error e => .error e
  | .ok cd =>
    match dataFnY .metrics m with
    | .error e => .error e
    | .ok md =>
      match dataFnY .income i with
      | .error e => .error e
      | .ok inc =>
        match dataFnPrice pr with
        | .error e => .error e
        | .ok pd =>
          match dataFnY .ratios r with
          | .error e => .error e
          | .ok rd =>
            match dataFnY .balance b with
            | .error e => .error e
            | .ok bd =>
              match dataFnY .cashflow c with
              | .error e => .error e
              | .ok cf => .ok ⟨cd, md, inc, pd, rd, bd, cf⟩

/-- Income-statement record with every numeric field 1. -/
def incomeRecEx : RawRec :=
  ("calendarYear", Val.str "2022") :: incomeFieldMap.map (fun s => (s.rawKey, Val.num 1))

/-- Balance-sheet record with every numeric field 1. -/
def balanceRecEx : RawRec :=
  ("calendarYear", Val.str "2022") :: balanceFieldMap.map (fun s => (s.rawKey, Val.num 1))

/-- Cash-flow record with every numeric field 1. -/
def cashflowRecEx : RawRec :=
  ("date", Val.str "2022-03-15") :: cashflowFieldMap.map (fun s => (s.rawKey, Val.num 1))

/-- Ratios record with every numeric field 1. -/
def ratiosRecEx : RawRec :=
  ("date", Val.str "2022-03-15") :: ratiosFieldMap.map (fun s => (s.rawKey, Val.num 1))

set_option maxRecDepth 1000000 in
/-- C6 counterexample.  With six fetches whose responses each normalize fine
on their own, a single normalization failure in key metrics (an empty
record) makes the callback abort with the uncaught `KeyError`: none of the
other six tables is produced, refuting per-statement independence. -/
theorem c6_counterexample :
    (normY .income [incomeRecEx]).isOk = true ∧
    (normY .balance [balanceRecEx]).isOk = true ∧
    (normY .cashflow [cashflowRecEx]).isOk = true ∧
    (normY .ratios [ratiosRecEx]).isOk = true ∧
    (normPrice [(1, [(closeKey, Val.num 10)])]).isOk = true ∧
    (normProfileE []).isOk = true ∧
    (normY .metrics [[]]).isOk = false ∧
    appRun (.resp []) (.resp [[]]) (.resp [incomeRecEx])
        (.resp [(1, [(closeKey, Val.num 10)])]) (.resp [ratiosRecEx])
        (.resp [balanceRecEx]) (.resp [cashflowRecEx]) = .error .keyError := by decide

/-- Key-metrics record with every numeric field 1. -/
def metricsRecEx : RawRec :=
  ("date", Val.str "2022-03-15") :: metricsFieldMap.map (fun s => (s.rawKey, Val.num 1))

/-- C6 — corrected.  Transport-level failures are caught inside each data
function and only blank that function's own table, for every one of the
seven: with all seven individual calls producing `ok` results, the callback
completes with exactly those tables, and replacing any single one of the
seven outcomes by a transport failure still completes, with only that slot
`None` and every other table exactly what its own data function produced.
(Per the counterexample, an uncaught normalization error instead aborts the
whole callback.) -/
theorem c6_transport_failure_degrades_only_failed_slot
    (p : Fetched RawRec) (m i : Fetched (List RawRec))
    (pr : Fetched (List (ℕ × RawRec))) (r b c : Fetched (List RawRec))
    (cd : Option (List (String × Option Val))) (md inc : Option YDF)
    (pd : Option PriceDF) (rd bd cf : Option YDF)
    (hp : dataFnProfile p = .ok cd) (hm : dataFnY .metrics m = .ok md)
    (hi : dataFnY .income i = .ok inc) (hpr : dataFnPrice pr = .ok pd)
    (hr : dataFnY .ratios r = .ok rd) (hb : dataFnY .balance b = .ok bd)
    (hc : dataFnY .cashflow c = .ok cf) :
    appRun p m i pr r b c = .ok ⟨cd, md, inc, pd, rd, bd, cf⟩ ∧
    appRun .reqFail m i pr r b c = .ok ⟨none, md, inc, pd, rd, bd, cf⟩ ∧
    appRun p .reqFail i pr r b c = .ok ⟨cd, none, inc, pd, rd, bd, cf⟩ ∧
    appRun p m .reqFail pr r b c = .ok ⟨cd, md, none, pd, rd, bd, cf⟩ ∧
    appRun p m i .reqFail r b c = .ok ⟨cd, md, inc, none, rd, bd, cf⟩ ∧
    appRun p m i pr .reqFail b c = .ok ⟨cd, md, inc, pd, none, bd, cf⟩ ∧
    appRun p m i pr r .reqFail c = .ok ⟨cd, md, inc, pd, rd, none, cf⟩ ∧
    appRun p m i pr r b .reqFail = .ok ⟨cd, md, inc, pd, rd, bd, none⟩ := by
  have hyf : ∀ ep : YEndpoint, dataFnY ep .reqFail = .ok none := fun ep => rfl
  have hpf : dataFnProfile .reqFail = .ok none := rfl
  have hprf : dataFnPrice .reqFail = .ok none := rfl
  refine ⟨?_, ?_, ?_, ?_, ?_, ?_, ?_, ?_⟩ <;>
    simp only [appRun, hp, hm, hi, hpr, hr, hb, hc, hyf, hpf, hprf]

set_option maxRecDepth 1000000 in
/-- C6 witness: on concrete well-formed responses for all seven calls, a
transport failure in the key-metrics slot alone still lets the callback
complete. -/
theorem c6_transport_failure_degrades_only_failed_slot_witness :
    (appRun (.resp []) .reqFail (.resp [incomeRecEx])
      (.resp [(1, [(closeKey, Val.num 10)])]) (.resp [ratiosRecEx])
      (.resp [balanceRecEx]) (.resp [cashflowRecEx])).isOk = true := by
  have h := c6_transport_failure_degrades_only_failed_slot
    (Fetched.resp []) (Fetched.resp [metricsRecEx]) (Fetched.resp [incomeRecEx])
    (Fetched.resp [(1, [(closeKey, Val.num 10)])]) (Fetched.resp [ratiosRecEx])
    (Fetched.resp [balanceRecEx]) (Fetched.resp [cashflowRecEx])
    _ _ _ _ _ _ _ rfl rfl rfl rfl rfl rfl rfl
  rw [h.2.2.1]; rfl
